import Mathlib

/-!
Shallow embedding of `src/contracts/tap-to-earn/src/lib.rs` (a Soroban
smart contract with two entry points, `initialize` and `tap`).

Modelling decisions, all taken from the source:

* `Address` is an abstract identity; we use `Nat`.
* The five storage keys (`DataKey::Admin/Token/TapAmount/Cooldown` in
  instance scope, `DataKey::LastTap` in persistent scope) are modelled as
  an `Option Config` (the four instance keys are only ever written
  together, by `initialize`, and `initialize` guards on `has(Admin)`),
  plus an `Option` association list for the `Map<Address, u64>` under
  `LastTap`.  A missing key makes the corresponding `unwrap()` in `tap`
  panic; both unwraps are modelled as the `Uninitialized` failure.
* `user.require_auth()` is modelled as an injected predicate
  `auth : Address → Bool`; `auth user = false` makes the call fail with
  `AuthorizationMissing`.
* A Soroban panic aborts the invocation and rolls back every storage
  write of the call, so a failing call is modelled as returning an error
  and leaving the state unchanged (`stepTap`, `stepInit`).
* Machine integers are `Nat` with explicit bounds: `u64` values are
  `< 2^64`, `u128` values are `< 2^128`.  The addition
  `last_tap_time + cooldown_time` is `u64` addition, which wraps
  modulo `2^64` in a release build; we model it as `(a + b) % 2^64`.
* `tap_amount as i128` is the Rust numeric cast from `u128` to `i128`:
  two's-complement reinterpretation, modelled by `u128_as_i128`.
* The token transfer is an instruction to the host; we record it as a
  `Transfer` value (the asset the client is built on, source,
  destination, signed quantity) returned by a successful `tap`.
-/

set_option autoImplicit false
set_option maxRecDepth 10000

deriving instance DecidableEq for Except

namespace TapToEarn

abbrev Address := Nat

/-- The modulus of `u64` arithmetic, `2^64`. -/
def U64_MOD : Nat := 2 ^ 64

/-- The modulus of `u128` arithmetic, `2^128`. -/
def U128_MOD : Nat := 2 ^ 128

/-- The largest signed 128-bit value, `i128::MAX = 2^127 - 1`. -/
def I128_MAX : Nat := 2 ^ 127 - 1

/-- The failure modes of the two entry points.  The Rust code fails by
panicking; the spec's error taxonomy names the panics. -/
inductive Error where
  | AlreadyInitialized
  | Uninitialized
  | AuthorizationMissing
  | CooldownActive
  deriving DecidableEq, Repr

/-- The four values written to instance storage by `initialize`
(`DataKey::Admin`, `DataKey::Token`, `DataKey::TapAmount`,
`DataKey::Cooldown`).  Field names follow the Rust parameters. -/
structure Config where
  admin : Address
  token : Address
  tap_amount : Nat
  cooldown_sec : Nat
  deriving DecidableEq, Repr

/-- Lookup (`Map::get`) in the Soroban `Map<Address, u64>`: the value
stored at a key, if present. -/
def mapGet : List (Address × Nat) → Address → Option Nat
  | [], _ => none
  | (k, v) :: rest, u => if k = u then some v else mapGet rest u

/-- Update (`Map::set`) in the Soroban `Map<Address, u64>`: replace the
entry at the key if present, insert it otherwise. -/
def mapSet : List (Address × Nat) → Address → Nat → List (Address × Nat)
  | [], u, t => [(u, t)]
  | (k, v) :: rest, u, t =>
      if k = u then (u, t) :: rest else (k, v) :: mapSet rest u t

/-- The durable storage of one contract instance: the instance-scope
configuration and the persistent-scope `LastTap` registry. -/
structure ContractState where
  config : Option Config
  lastTap : Option (List (Address × Nat))
  deriving DecidableEq, Repr

/-- The storage before any call: no key is present. -/
def emptyState : ContractState := ⟨none, none⟩

/-- One invocation of the host's asset-transfer primitive:
`token_client.transfer(&source, &dest, &amount)`, where the client was
built on the asset `token` (`token::Client::new(&env, &token_id)`). -/
structure Transfer where
  token : Address
  source : Address
  dest : Address
  amount : Int
  deriving DecidableEq, Repr

/-- The Rust cast `x as i128` applied to a `u128` value `x < 2^128`:
two's-complement reinterpretation into the signed 128-bit range. -/
def u128_as_i128 (x : Nat) : Int :=
  if x ≤ I128_MAX then (x : Int) else (x : Int) - (U128_MOD : Int)

/-- Embedding of `TapGameContract::initialize` (named `initContract`
here because the source name is a Lean keyword): fails with `AlreadyInitialized` when
the `Admin` key already exists, otherwise writes the four configuration
values and an empty `LastTap` map. -/
def initContract (s : ContractState) (admin token : Address)
    (tap_amount cooldown_sec : Nat) : Except Error ContractState :=
  if s.config.isSome then
    .error .AlreadyInitialized
  else
    .ok { config := some ⟨admin, token, tap_amount, cooldown_sec⟩,
          lastTap := some [] }

/-- Embedding of `TapGameContract::tap`: `require_auth`, read the configuration and
the registry (panicking with `Uninitialized` when absent), check
`last_tap_time + cooldown_time > current_time` in `u64` arithmetic,
then write the registry entry and issue the transfer of
`tap_amount as i128` from the contract address `self` to `user`. -/
def tap (s : ContractState) (self : Address) (auth : Address → Bool)
    (user : Address) (current_time : Nat) :
    Except Error (ContractState × Transfer) :=
  if auth user then
    match s.config with
    | none => .error .Uninitialized
    | some c =>
        match s.lastTap with
        | none => .error .Uninitialized
        | some m =>
            let last_tap_time := (mapGet m user).getD 0
            if (last_tap_time + c.cooldown_sec) % U64_MOD > current_time then
              .error .CooldownActive
            else
              .ok ({ s with lastTap := some (mapSet m user current_time) },
                   ⟨c.token, self, user, u128_as_i128 c.tap_amount⟩)
  else
    .error .AuthorizationMissing

/-- The observable effect of one `initialize` invocation: the state
after the call (a panic rolls back, leaving the state unchanged) and
the error, if any. -/
def stepInit (s : ContractState) (admin token : Address)
    (tap_amount cooldown_sec : Nat) : ContractState × Option Error :=
  match initContract s admin token tap_amount cooldown_sec with
  | .ok s' => (s', none)
  | .error e => (s, some e)

/-- The observable effect of one `tap` invocation: the state after the
call, the list of transfers issued, and the error, if any.  A panic
rolls back, so a failing call leaves the state unchanged and issues no
transfer. -/
def stepTap (s : ContractState) (self : Address) (auth : Address → Bool)
    (user : Address) (current_time : Nat) :
    ContractState × List Transfer × Option Error :=
  match tap s self auth user current_time with
  | .ok (s', tr) => (s', [tr], none)
  | .error e => (s, [], some e)

/-- Whether an `Except` computation succeeded. -/
def isOk {ε α : Type} : Except ε α → Bool
  | .ok _ => true
  | .error _ => false

/-- Looking a key up right after setting it yields the new value. -/
theorem mapGet_mapSet_self (m : List (Address × Nat)) (u : Address) (t : Nat) :
    mapGet (mapSet m u t) u = some t := by
  induction m with
  | nil => simp [mapGet, mapSet]
  | cons kv rest ih =>
      obtain ⟨k, v⟩ := kv
      by_cases h : k = u <;> simp [mapGet, mapSet, h, ih]

/-- Setting one key leaves every other key's value unchanged. -/
theorem mapGet_mapSet_ne (m : List (Address × Nat)) (u v : Address) (t : Nat)
    (h : v ≠ u) : mapGet (mapSet m u t) v = mapGet m v := by
  induction m with
  | nil => simp [mapGet, mapSet, Ne.symm h]
  | cons kv rest ih =>
      obtain ⟨k, w⟩ := kv
      by_cases hk : k = u
      · subst hk
        simp [mapSet, mapGet, Ne.symm h]
      · simp [mapSet, mapGet, hk, ih]

/-- Inversion of a successful `tap`: authorization held, both storage
keys were present, the (wrapped) eligibility check passed, the registry
entry of `user` was set to the call time, and the issued transfer moves
`tap_amount as i128` from the contract to `user`. -/
theorem tap_ok_inv (s : ContractState) (self : Address)
    (auth : Address → Bool) (user : Address) (t : Nat)
    (s' : ContractState) (tr : Transfer)
    (h : tap s self auth user t = .ok (s', tr)) :
    auth user = true ∧
    ∃ c m, s.config = some c ∧ s.lastTap = some m ∧
      ((mapGet m user).getD 0 + c.cooldown_sec) % U64_MOD ≤ t ∧
      s' = { s with lastTap := some (mapSet m user t) } ∧
      tr = ⟨c.token, self, user, u128_as_i128 c.tap_amount⟩ := by
  by_cases ha : auth user
  · rcases hc : s.config with _ | c
    · simp [tap, ha, hc] at h
    · rcases hm : s.lastTap with _ | m
      · simp [tap, ha, hc, hm] at h
      · by_cases hcool :
            ((mapGet m user).getD 0 + c.cooldown_sec) % U64_MOD > t
        · simp [tap, ha, hc, hm, hcool] at h
        · simp [tap, ha, hc, hm, hcool] at h
          exact ⟨ha, c, m, rfl, rfl, Nat.le_of_not_lt hcool,
            h.1.symm, h.2.symm⟩
  · simp [tap, ha] at h

/-- Claim C4: once `initialize` has succeeded, a second `initialize`
call with any arguments fails with `AlreadyInitialized` and leaves the
state — in particular the stored configuration — exactly as it was. -/
theorem C4_second_init_fails (s s' : ContractState) (a tk : Address)
    (amt cd : Nat) (h : initContract s a tk amt cd = .ok s')
    (a' tk' : Address) (amt' cd' : Nat) :
    stepInit s' a' tk' amt' cd' = (s', some Error.AlreadyInitialized) := by
  unfold initContract at h
  by_cases hs : s.config.isSome
  · simp [hs] at h
  · simp [hs] at h
    rw [← h]
    simp [stepInit, initContract]

/-- Witness for C4: initialize a fresh instance, then watch a second
call fail without touching the stored configuration. -/
theorem C4_second_init_fails_witness :
    stepInit ⟨some ⟨1, 2, 100, 3600⟩, some []⟩ 7 8 9 10
        = (⟨some ⟨1, 2, 100, 3600⟩, some []⟩, some Error.AlreadyInitialized) :=
  C4_second_init_fails emptyState ⟨some ⟨1, 2, 100, 3600⟩, some []⟩
    1 2 100 3600 (by decide) 7 8 9 10

/-- Claim C6: without authorization for `user`, `tap` fails with
`AuthorizationMissing` whatever the stored state and the clock say, and
the failing call mutates nothing and issues no transfer. -/
theorem C6_auth_gate (s : ContractState) (self : Address)
    (auth : Address → Bool) (user : Address) (t : Nat)
    (h : auth user = false) :
    stepTap s self auth user t = (s, [], some Error.AuthorizationMissing) := by
  simp [stepTap, tap, h]

/-- Witness for C6 on an initialized state whose cooldown has elapsed:
the unauthorized call still fails with `AuthorizationMissing`. -/
theorem C6_auth_gate_witness :
    stepTap ⟨some ⟨1, 2, 100, 3600⟩, some []⟩ 0 (fun _ => false) 7 5000
        = (⟨some ⟨1, 2, 100, 3600⟩, some []⟩, [],
           some Error.AuthorizationMissing) :=
  C6_auth_gate ⟨some ⟨1, 2, 100, 3600⟩, some []⟩ 0 (fun _ => false) 7 5000 rfl

/-- Claim C7: while no configuration is stored (`initialize` has never
succeeded), every `tap` call fails and leaves the state unchanged, and
an authorized call fails precisely with `Uninitialized`. -/
theorem C7_uninitialized (s : ContractState) (self : Address)
    (auth : Address → Bool) (user : Address) (t : Nat)
    (h : s.config = none) :
    (stepTap s self auth user t).1 = s ∧
    (stepTap s self auth user t).2.1 = [] ∧
    (stepTap s self auth user t).2.2 ≠ none ∧
    (auth user = true →
      stepTap s self auth user t = (s, [], some Error.Uninitialized)) := by
  by_cases ha : auth user
  · simp [stepTap, tap, ha, h]
  · simp [stepTap, tap, ha]

/-- Witness for C7 on the empty pre-initialization storage. -/
theorem C7_uninitialized_witness :
    (stepTap emptyState 0 (fun _ => true) 7 123).1 = emptyState ∧
    (stepTap emptyState 0 (fun _ => true) 7 123).2.1 = [] ∧
    (stepTap emptyState 0 (fun _ => true) 7 123).2.2 ≠ none ∧
    ((fun _ : Address => true) 7 = true →
      stepTap emptyState 0 (fun _ => true) 7 123
        = (emptyState, [], some Error.Uninitialized)) :=
  C7_uninitialized emptyState 0 (fun _ => true) 7 123 rfl

/-- Claim C1 fails on the code: on a freshly initialized contract with
cooldown 3600, an authorized user with no registry entry taps at
ledger time 0 and the call fails with `CooldownActive` instead of
succeeding — the absent entry is read as timestamp 0 and
`0 + 3600 > 0`. -/
theorem C1_counterexample :
    initContract emptyState 1 2 100 3600
        = .ok ⟨some ⟨1, 2, 100, 3600⟩, some []⟩ ∧
    stepTap ⟨some ⟨1, 2, 100, 3600⟩, some []⟩ 0 (fun _ => true) 7 0
        = (⟨some ⟨1, 2, 100, 3600⟩, some []⟩, [],
           some Error.CooldownActive) := by
  refine ⟨by decide, by decide⟩

/-- Claim C1 amended: on an initialized contract, an authorized user
with no registry entry succeeds with `tap` at ledger time `t` exactly
when `cooldown_sec ≤ t`; the absent entry is treated as timestamp 0 and
is subject to the ordinary eligibility check, so the first tap is *not*
eligible at every ledger time. -/
theorem C1_amended_first_tap (s : ContractState) (self : Address)
    (auth : Address → Bool) (user : Address) (t : Nat) (c : Config)
    (m : List (Address × Nat))
    (hc : s.config = some c) (hm : s.lastTap = some m)
    (hnone : mapGet m user = none) (ha : auth user = true)
    (hcd : c.cooldown_sec < U64_MOD) :
    isOk (tap s self auth user t) = true ↔ c.cooldown_sec ≤ t := by
  by_cases hcool : c.cooldown_sec > t
  · simp [tap, isOk, ha, hc, hm, hnone, Nat.mod_eq_of_lt hcd, hcool]
  · simp [tap, isOk, ha, hc, hm, hnone, Nat.mod_eq_of_lt hcd, hcool]
    omega

/-- Witness for the amended C1 at cooldown 3600 and ledger time 5000. -/
theorem C1_amended_first_tap_witness :
    isOk (tap ⟨some ⟨1, 2, 100, 3600⟩, some []⟩ 0 (fun _ => true) 7 5000)
        = true ↔ (3600 : Nat) ≤ 5000 :=
  C1_amended_first_tap ⟨some ⟨1, 2, 100, 3600⟩, some []⟩ 0 (fun _ => true)
    7 5000 ⟨1, 2, 100, 3600⟩ [] rfl rfl rfl rfl (by decide)

/-- Claim C2 fails on the code: with stored last-claim timestamp
`2^64 - 1` and cooldown 2, an authorized `tap` at ledger time 5
succeeds even though `(2^64 - 1) + 2 ≤ 5` is false — the eligibility
check compares the sum reduced modulo `2^64`, not the mathematical
sum. -/
theorem C2_counterexample :
    isOk (tap ⟨some ⟨1, 2, 100, 2⟩, some [(7, 2 ^ 64 - 1)]⟩ 0
        (fun _ => true) 7 5) = true ∧
    ¬ ((2 ^ 64 - 1) + 2 ≤ 5) := by
  refine ⟨by decide, by decide⟩

/-- Claim C2 amended: on an initialized contract with authorized user,
whenever the stored last-claim value plus the cooldown does not
overflow `u64`, `tap` is eligible exactly when
`last_claim + cooldown ≤ current_time` (boundary inclusive); and a
successful `tap` at `t` followed by one at exactly `t + cooldown`
succeeds whenever `t + cooldown` is a representable `u64` time.  When
the sum overflows, the check instead uses the sum modulo `2^64`
(claim C9). -/
theorem C2_amended_eligibility (s : ContractState) (self : Address)
    (auth : Address → Bool) (user : Address) (t : Nat) (c : Config)
    (m : List (Address × Nat))
    (hc : s.config = some c) (hm : s.lastTap = some m)
    (ha : auth user = true) :
    ((mapGet m user).getD 0 + c.cooldown_sec < U64_MOD →
      (isOk (tap s self auth user t) = true ↔
        (mapGet m user).getD 0 + c.cooldown_sec ≤ t)) ∧
    (∀ s₁ tr₁, tap s self auth user t = .ok (s₁, tr₁) →
      t + c.cooldown_sec < U64_MOD →
      isOk (tap s₁ self auth user (t + c.cooldown_sec)) = true) := by
  constructor
  · intro hnoov
    by_cases hcool : (mapGet m user).getD 0 + c.cooldown_sec > t
    · simp [tap, isOk, ha, hc, hm, Nat.mod_eq_of_lt hnoov, hcool]
    · simp [tap, isOk, ha, hc, hm, Nat.mod_eq_of_lt hnoov, hcool]
      omega
  · intro s₁ tr₁ h1 hnoov
    obtain ⟨-, c', m', hc', hm', -, hs₁, -⟩ := tap_ok_inv _ _ _ _ _ _ _ h1
    have hcc : c' = c := Option.some.inj (hc'.symm.trans hc)
    subst hcc
    have hconf : s₁.config = some c' := by rw [hs₁]; exact hc'
    have hreg : s₁.lastTap = some (mapSet m' user t) := by rw [hs₁]
    have hcool : ¬ ((t + c'.cooldown_sec) % U64_MOD > t + c'.cooldown_sec) := by
      rw [Nat.mod_eq_of_lt hnoov]
      omega
    simp [tap, isOk, ha, hconf, hreg, mapGet_mapSet_self, hcool]

/-- Witness for the amended C2 at cooldown 3600: eligibility at time
5000 on an empty registry, and a fresh tap followed by one exactly one
cooldown later. -/
theorem C2_amended_eligibility_witness :
    (((mapGet ([] : List (Address × Nat)) 7).getD 0 + 3600 < U64_MOD →
      (isOk (tap ⟨some ⟨1, 2, 100, 3600⟩, some []⟩ 0 (fun _ => true) 7 5000)
          = true ↔
        (mapGet ([] : List (Address × Nat)) 7).getD 0 + 3600 ≤ 5000)) ∧
    (∀ s₁ tr₁,
      tap ⟨some ⟨1, 2, 100, 3600⟩, some []⟩ 0 (fun _ => true) 7 5000
          = .ok (s₁, tr₁) →
      5000 + 3600 < U64_MOD →
      isOk (tap s₁ 0 (fun _ => true) 7 (5000 + 3600)) = true)) :=
  C2_amended_eligibility ⟨some ⟨1, 2, 100, 3600⟩, some []⟩ 0 (fun _ => true)
    7 5000 ⟨1, 2, 100, 3600⟩ [] rfl rfl rfl

/-- Claim C3 fails on the code: with cooldown `2^64 - 2`, a fresh
authorized tap at `t₁ = 2^64 - 2` succeeds, and the follow-up tap at
`t₂ = 2^64 - 1` — with `t₁ < t₂` and `t₂ - t₁ = 1` far below the
cooldown — also succeeds instead of failing with `CooldownActive`,
because `t₁ + cooldown` wraps modulo `2^64`. -/
theorem C3_counterexample :
    (2 ^ 64 - 2 : Nat) < 2 ^ 64 - 1 ∧
    (2 ^ 64 - 1) - (2 ^ 64 - 2) < (2 ^ 64 - 2 : Nat) ∧
    tap ⟨some ⟨1, 2, 100, 2 ^ 64 - 2⟩, some []⟩ 0 (fun _ => true) 7
        (2 ^ 64 - 2)
      = .ok (⟨some ⟨1, 2, 100, 2 ^ 64 - 2⟩, some [(7, 2 ^ 64 - 2)]⟩,
             ⟨2, 0, 7, 100⟩) ∧
    isOk (tap ⟨some ⟨1, 2, 100, 2 ^ 64 - 2⟩, some [(7, 2 ^ 64 - 2)]⟩ 0
        (fun _ => true) 7 (2 ^ 64 - 1)) = true := by
  refine ⟨by decide, by decide, by decide, by decide⟩

/-- Claim C3 amended: after a successful `tap` at `t₁`, provided
`t₁ + cooldown` does not overflow `u64`, a second `tap` for the same
user at any `t₂` with `t₁ < t₂` and `t₂ - t₁ < cooldown` fails with
`CooldownActive`, leaving the state unchanged and issuing no
transfer. -/
theorem C3_amended_cooldown (s s₁ : ContractState) (self : Address)
    (auth : Address → Bool) (user : Address) (t₁ t₂ : Nat) (c : Config)
    (tr₁ : Transfer) (hc : s.config = some c)
    (h1 : tap s self auth user t₁ = .ok (s₁, tr₁))
    (hlt : t₁ < t₂) (hgap : t₂ - t₁ < c.cooldown_sec)
    (hnoov : t₁ + c.cooldown_sec < U64_MOD) :
    stepTap s₁ self auth user t₂ = (s₁, [], some Error.CooldownActive) := by
  obtain ⟨ha, c', m, hc', hm, -, hs₁, -⟩ := tap_ok_inv _ _ _ _ _ _ _ h1
  have hcc : c' = c := Option.some.inj (hc'.symm.trans hc)
  subst hcc
  have hconf : s₁.config = some c' := by rw [hs₁]; exact hc'
  have hreg : s₁.lastTap = some (mapSet m user t₁) := by rw [hs₁]
  have hcool : (t₁ + c'.cooldown_sec) % U64_MOD > t₂ := by
    rw [Nat.mod_eq_of_lt hnoov]
    omega
  simp [stepTap, tap, ha, hconf, hreg, mapGet_mapSet_self, hcool]

/-- Witness for the amended C3: a fresh tap at 5000 with cooldown 3600,
then a retry at 6000 fails with `CooldownActive` and changes nothing. -/
theorem C3_amended_cooldown_witness :
    stepTap ⟨some ⟨1, 2, 100, 3600⟩, some [(7, 5000)]⟩ 0 (fun _ => true)
        7 6000
      = (⟨some ⟨1, 2, 100, 3600⟩, some [(7, 5000)]⟩, [],
         some Error.CooldownActive) :=
  C3_amended_cooldown ⟨some ⟨1, 2, 100, 3600⟩, some []⟩
    ⟨some ⟨1, 2, 100, 3600⟩, some [(7, 5000)]⟩ 0 (fun _ => true) 7
    5000 6000 ⟨1, 2, 100, 3600⟩ ⟨2, 0, 7, 100⟩ rfl (by decide)
    (by decide) (by decide) (by decide)

/-- Claim C5 fails on the code: with reward amount `2^127`, a
successful `tap` instructs the transfer primitive to move `-2^127`
units — the two's-complement reinterpretation of the stored amount —
rather than `2^127` units. -/
theorem C5_counterexample :
    tap ⟨some ⟨1, 2, 2 ^ 127, 0⟩, some []⟩ 0 (fun _ => true) 7 3
      = .ok (⟨some ⟨1, 2, 2 ^ 127, 0⟩, some [(7, 3)]⟩,
             ⟨2, 0, 7, -(2 ^ 127 : Int)⟩) ∧
    ((-(2 ^ 127 : Int)) ≠ ((2 ^ 127 : Nat) : Int)) := by
  refine ⟨by decide, by decide⟩

/-- Claim C5 amended: every successful `tap` issues exactly one
transfer, of the configured asset, from the contract address to
`user`, of exactly the stored reward amount provided that amount is at
most `i128::MAX` (otherwise the quantity is the wrapped cast, claim
C8), and rewrites exactly the `user` entry of the registry to the call
time, leaving every other entry unchanged; a failed `tap` issues no
transfer and changes no entry. -/
theorem C5_amended_conservation (s : ContractState) (self : Address)
    (auth : Address → Bool) (user : Address) (t : Nat) (c : Config)
    (m : List (Address × Nat))
    (hc : s.config = some c) (hm : s.lastTap = some m) :
    (∀ s₁ tr, tap s self auth user t = .ok (s₁, tr) →
      stepTap s self auth user t = (s₁, [tr], none) ∧
      tr.token = c.token ∧ tr.source = self ∧ tr.dest = user ∧
      (c.tap_amount ≤ I128_MAX → tr.amount = (c.tap_amount : Int)) ∧
      s₁.config = s.config ∧ s₁.lastTap = some (mapSet m user t) ∧
      mapGet (mapSet m user t) user = some t ∧
      (∀ v, v ≠ user → mapGet (mapSet m user t) v = mapGet m v)) ∧
    (∀ e, tap s self auth user t = .error e →
      stepTap s self auth user t = (s, [], some e)) := by
  constructor
  · intro s₁ tr h
    obtain ⟨ha, c', m', hc', hm', -, hs₁, htr⟩ := tap_ok_inv _ _ _ _ _ _ _ h
    have hcc : c' = c := Option.some.inj (hc'.symm.trans hc)
    have hmm : m' = m := Option.some.inj (hm'.symm.trans hm)
    rw [hcc] at htr
    rw [hmm] at hs₁
    refine ⟨by simp [stepTap, h], by rw [htr], by rw [htr], by rw [htr], ?_,
      by rw [hs₁], by rw [hs₁], mapGet_mapSet_self m user t,
      fun v hv => mapGet_mapSet_ne m user v t hv⟩
    intro hle
    rw [htr]
    simp [u128_as_i128, hle]
  · intro e h
    simp [stepTap, h]

/-- Witness for the amended C5 on a concrete successful and failing
pair of calls. -/
theorem C5_amended_conservation_witness :
    (∀ s₁ tr,
      tap ⟨some ⟨1, 2, 100, 3600⟩, some []⟩ 0 (fun _ => true) 7 5000
          = .ok (s₁, tr) →
      stepTap ⟨some ⟨1, 2, 100, 3600⟩, some []⟩ 0 (fun _ => true) 7 5000
          = (s₁, [tr], none) ∧
      tr.token = 2 ∧ tr.source = 0 ∧ tr.dest = 7 ∧
      ((100 : Nat) ≤ I128_MAX → tr.amount = ((100 : Nat) : Int)) ∧
      s₁.config = (⟨some ⟨1, 2, 100, 3600⟩, some []⟩ : ContractState).config ∧
      s₁.lastTap = some (mapSet [] 7 5000) ∧
      mapGet (mapSet [] 7 5000) 7 = some 5000 ∧
      (∀ v, v ≠ 7 → mapGet (mapSet [] 7 5000) v = mapGet [] v)) ∧
    (∀ e,
      tap ⟨some ⟨1, 2, 100, 3600⟩, some []⟩ 0 (fun _ => true) 7 5000
          = .error e →
      stepTap ⟨some ⟨1, 2, 100, 3600⟩, some []⟩ 0 (fun _ => true) 7 5000
          = (⟨some ⟨1, 2, 100, 3600⟩, some []⟩, [], some e)) :=
  C5_amended_conservation ⟨some ⟨1, 2, 100, 3600⟩, some []⟩ 0 (fun _ => true)
    7 5000 ⟨1, 2, 100, 3600⟩ [] rfl rfl

/-- Claim C8: the quantity a successful `tap` passes to the
asset-transfer primitive is the stored unsigned 128-bit reward amount
narrowed by the unchecked cast `tap_amount as i128`: equal to the
stored amount when it is at most `i128::MAX`, and negative (the
two's-complement reinterpretation) otherwise. -/
theorem C8_unchecked_cast (s : ContractState) (self : Address)
    (auth : Address → Bool) (user : Address) (t : Nat)
    (s₁ : ContractState) (tr : Transfer) (c : Config)
    (hc : s.config = some c) (hv : c.tap_amount < U128_MOD)
    (h : tap s self auth user t = .ok (s₁, tr)) :
    tr.amount = u128_as_i128 c.tap_amount ∧
    (c.tap_amount ≤ I128_MAX → tr.amount = (c.tap_amount : Int)) ∧
    (I128_MAX < c.tap_amount → tr.amount < 0) := by
  obtain ⟨-, c', -, hc', -, -, -, htr⟩ := tap_ok_inv _ _ _ _ _ _ _ h
  have hcc : c' = c := Option.some.inj (hc'.symm.trans hc)
  rw [hcc] at htr
  subst htr
  refine ⟨rfl, ?_, ?_⟩
  · intro hle
    simp [u128_as_i128, hle]
  · intro hgt
    have hlt : (c.tap_amount : Int) < (U128_MOD : Int) := by exact_mod_cast hv
    simp only [u128_as_i128, if_neg (Nat.not_le.mpr hgt)]
    omega

/-- Witness for C8 on a successful tap with reward 100. -/
theorem C8_unchecked_cast_witness :
    (Transfer.mk 2 0 7 100).amount = u128_as_i128 100 ∧
    ((100 : Nat) ≤ I128_MAX →
      (Transfer.mk 2 0 7 100).amount = ((100 : Nat) : Int)) ∧
    (I128_MAX < (100 : Nat) → (Transfer.mk 2 0 7 100).amount < 0) :=
  C8_unchecked_cast ⟨some ⟨1, 2, 100, 3600⟩, some []⟩ 0 (fun _ => true) 7
    5000 ⟨some ⟨1, 2, 100, 3600⟩, some [(7, 5000)]⟩ ⟨2, 0, 7, 100⟩
    ⟨1, 2, 100, 3600⟩ rfl (by decide) (by decide)

/-- Claim C9: the eligibility comparison adds the stored last-claim
timestamp and the cooldown in `u64` arithmetic; whenever the
mathematical sum reaches `2^64`, the check compares the sum reduced
modulo `2^64` against the current time, so an authorized `tap` can
succeed even though the cooldown interval has not elapsed
(`current_time < last + cooldown`). -/
theorem C9_u64_wrap (s : ContractState) (self : Address)
    (auth : Address → Bool) (user : Address) (t last : Nat) (c : Config)
    (m : List (Address × Nat))
    (hc : s.config = some c) (hm : s.lastTap = some m)
    (hlast : mapGet m user = some last) (ha : auth user = true)
    (ht : t < U64_MOD) (hov : U64_MOD ≤ last + c.cooldown_sec) :
    (isOk (tap s self auth user t) = true ↔
        (last + c.cooldown_sec) % U64_MOD ≤ t) ∧
    ((last + c.cooldown_sec) % U64_MOD ≤ t →
        isOk (tap s self auth user t) = true ∧
        t < last + c.cooldown_sec) := by
  have hiff : isOk (tap s self auth user t) = true ↔
      (last + c.cooldown_sec) % U64_MOD ≤ t := by
    by_cases hcool : (last + c.cooldown_sec) % U64_MOD > t
    · simp [tap, isOk, ha, hc, hm, hlast, hcool]
    · simp [tap, isOk, ha, hc, hm, hlast, hcool]
      omega
  exact ⟨hiff, fun hle => ⟨hiff.mpr hle, by omega⟩⟩

/-- Witness for C9: with stored timestamp `2^64 - 1` and cooldown 2,
the wrapped sum is 1, so the tap at time 5 succeeds although the
cooldown has not elapsed. -/
theorem C9_u64_wrap_witness :
    (isOk (tap ⟨some ⟨1, 2, 100, 2⟩, some [(7, 2 ^ 64 - 1)]⟩ 0
        (fun _ => true) 7 5) = true ↔
      ((2 ^ 64 - 1) + 2) % U64_MOD ≤ 5) ∧
    (((2 ^ 64 - 1) + 2) % U64_MOD ≤ 5 →
      isOk (tap ⟨some ⟨1, 2, 100, 2⟩, some [(7, 2 ^ 64 - 1)]⟩ 0
          (fun _ => true) 7 5) = true ∧
      5 < (2 ^ 64 - 1) + 2) :=
  C9_u64_wrap ⟨some ⟨1, 2, 100, 2⟩, some [(7, 2 ^ 64 - 1)]⟩ 0
    (fun _ => true) 7 5 (2 ^ 64 - 1) ⟨1, 2, 100, 2⟩ [(7, 2 ^ 64 - 1)]
    rfl rfl (by decide) rfl (by decide) (by decide)

/-- Claim C10: `tap` never reads the stored admin identity: on two
initialized states whose configurations agree except possibly on the
admin field and whose registries agree, the call has the same outcome,
issues the same transfers, and leaves the same registry. -/
theorem C10_admin_unused (s₁ s₂ : ContractState) (c₁ c₂ : Config)
    (h₁ : s₁.config = some c₁) (h₂ : s₂.config = some c₂)
    (hm : s₁.lastTap = s₂.lastTap)
    (htok : c₁.token = c₂.token) (hamt : c₁.tap_amount = c₂.tap_amount)
    (hcd : c₁.cooldown_sec = c₂.cooldown_sec)
    (self : Address) (auth : Address → Bool) (user : Address) (t : Nat) :
    (stepTap s₁ self auth user t).1.lastTap
        = (stepTap s₂ self auth user t).1.lastTap ∧
    (stepTap s₁ self auth user t).2 = (stepTap s₂ self auth user t).2 := by
  by_cases ha : auth user
  · rcases hL : s₁.lastTap with _ | m
    · have hL₂ : s₂.lastTap = none := hm.symm.trans hL
      simp [stepTap, tap, ha, h₁, h₂, hL, hL₂]
    · have hL₂ : s₂.lastTap = some m := hm.symm.trans hL
      by_cases hcool :
          ((mapGet m user).getD 0 + c₁.cooldown_sec) % U64_MOD > t
      · simp [stepTap, tap, ha, h₁, h₂, hL, hL₂, hcool, ← hcd]
      · simp [stepTap, tap, ha, h₁, h₂, hL, hL₂, hcool, ← hcd, hamt, htok]
  · simp [stepTap, tap, ha, hm]

/-- Witness for C10 on two states that differ only in the stored admin
(1 versus 5). -/
theorem C10_admin_unused_witness :
    (stepTap ⟨some ⟨1, 2, 100, 3600⟩, some []⟩ 0 (fun _ => true)
        7 9999).1.lastTap
      = (stepTap ⟨some ⟨5, 2, 100, 3600⟩, some []⟩ 0 (fun _ => true)
        7 9999).1.lastTap ∧
    (stepTap ⟨some ⟨1, 2, 100, 3600⟩, some []⟩ 0 (fun _ => true) 7 9999).2
      = (stepTap ⟨some ⟨5, 2, 100, 3600⟩, some []⟩ 0 (fun _ => true)
        7 9999).2 :=
  C10_admin_unused ⟨some ⟨1, 2, 100, 3600⟩, some []⟩
    ⟨some ⟨5, 2, 100, 3600⟩, some []⟩ ⟨1, 2, 100, 3600⟩ ⟨5, 2, 100, 3600⟩
    rfl rfl rfl rfl rfl rfl 0 (fun _ => true) 7 9999

end TapToEarn
